import Mathlib

/-!
Verification of the client-side session and generation-pipeline
orchestrator of the AI Avatar frontend.

The development shallowly embeds the Zustand store
(`frontend/src/stores/useAppStore.ts`), the chat interface component
(`ChatInterface.tsx`), the manual input component (`ManualInput.tsx`) and
the playback decisions of `AvatarDisplay.tsx`.  Event handlers become pure
state-transition functions; remote responses are explicit arguments.
-/

namespace AvatarApp

/-- Processing status of a remote job, from `types/index.ts`. -/
inductive ProcessingStatus
  | pending
  | processing
  | completed
  | failed
deriving DecidableEq, Repr

/-- Chat mode, from `types/index.ts` (`ChatMode`). -/
inductive ChatMode
  | auto
  | manual
deriving DecidableEq, Repr

/-- Role of a chat message. -/
inductive Role
  | user
  | assistant
deriving DecidableEq, Repr

/-- A chat message, from `types/index.ts` (`ChatMessage`).  Timestamps are
abstracted to naturals; they are opaque data for the orchestrator. -/
structure ChatMessage where
  role : Role
  content : String
  timestamp : Nat
  audio_url : Option String := none
  video_url : Option String := none
deriving DecidableEq, Repr

/-- The global Zustand store state, from `useAppStore.ts` (`AppState`). -/
structure AppState where
  voiceId : Option String
  cloneId : Option String
  imageId : Option String
  isReady : Bool
  mode : ChatMode
  conversationId : Option String
  messages : List ChatMessage
  isLoading : Bool
  currentVideoUrl : Option String
  currentAudioUrl : Option String
deriving DecidableEq, Repr

/-- The initial store state created on first load (`useAppStore.ts`). -/
def initialState : AppState :=
  { voiceId := none
    cloneId := none
    imageId := none
    isReady := false
    mode := ChatMode.auto
    conversationId := none
    messages := []
    isLoading := false
    currentVideoUrl := none
    currentAudioUrl := none }

/-- `setVoiceId` action of the store: stores the id and rederives
`isReady` from the new id and the other two stored ids. -/
def setVoiceId (id : Option String) (s : AppState) : AppState :=
  { s with
    voiceId := id
    isReady := id.isSome && s.cloneId.isSome && s.imageId.isSome }

/-- `setCloneId` action of the store. -/
def setCloneId (id : Option String) (s : AppState) : AppState :=
  { s with
    cloneId := id
    isReady := s.voiceId.isSome && id.isSome && s.imageId.isSome }

/-- `setImageId` action of the store. -/
def setImageId (id : Option String) (s : AppState) : AppState :=
  { s with
    imageId := id
    isReady := s.voiceId.isSome && s.cloneId.isSome && id.isSome }

/-- `setMode` action of the store. -/
def setMode (m : ChatMode) (s : AppState) : AppState :=
  { s with mode := m }

/-- `addMessage` action of the store: appends a message to the transcript. -/
def addMessage (m : ChatMessage) (s : AppState) : AppState :=
  { s with messages := s.messages ++ [m] }

/-- `setMessages` action of the store. -/
def setMessages (ms : List ChatMessage) (s : AppState) : AppState :=
  { s with messages := ms }

/-- `setIsLoading` action of the store. -/
def setIsLoading (b : Bool) (s : AppState) : AppState :=
  { s with isLoading := b }

/-- `setCurrentVideo` action of the store. -/
def setCurrentVideo (url : Option String) (s : AppState) : AppState :=
  { s with currentVideoUrl := url }

/-- `setCurrentAudio` action of the store. -/
def setCurrentAudio (url : Option String) (s : AppState) : AppState :=
  { s with currentAudioUrl := url }

/-- `reset` action of the store: writes every field back to its initial
value (`useAppStore.ts` lines 58-70). -/
def reset (_s : AppState) : AppState :=
  { voiceId := none
    cloneId := none
    imageId := none
    isReady := false
    mode := ChatMode.auto
    conversationId := none
    messages := []
    isLoading := false
    currentVideoUrl := none
    currentAudioUrl := none }

/-- The persisted projection of the store, produced by `partialize` in the
`persist` middleware configuration: exactly the three setup identifiers. -/
structure PersistedState where
  voiceId : Option String
  cloneId : Option String
  imageId : Option String
deriving DecidableEq, Repr

/-- `partialize` of the `persist` middleware (`useAppStore.ts` lines 74-78). -/
def partialize (s : AppState) : PersistedState :=
  { voiceId := s.voiceId
    cloneId := s.cloneId
    imageId := s.imageId }

/-- Rehydration from persisted storage.  The store uses the `persist`
middleware default merge, a shallow spread of the persisted object over the
current (initial) state: only the three persisted identifier fields are
overwritten; every other field, `isReady` included, keeps the value it had
in the state being merged into. -/
def rehydrate (p : PersistedState) (s : AppState) : AppState :=
  { s with
    voiceId := p.voiceId
    cloneId := p.cloneId
    imageId := p.imageId }

/-- Whitespace test used by the JavaScript `trim` on the characters the
inputs of this app produce. -/
def isWsChar (c : Char) : Bool :=
  c == ' ' || c == '\n' || c == '\t' || c == '\r'

/-- Model of `String.prototype.trim`: drop whitespace from both ends.  Text
buffers are modelled as lists of characters. -/
def jsTrim (cs : List Char) : List Char :=
  ((cs.dropWhile isWsChar).reverse.dropWhile isWsChar).reverse

/-! ## ChatInterface component (`ChatInterface.tsx`) -/

/-- Shape of a `/chat/message` response (`ChatResponse` in
`types/index.ts`), restricted to the fields the component reads. -/
structure ChatResponse where
  conversation_id : String
  response : ChatMessage
deriving DecidableEq, Repr

/-- Local React state of `ChatInterface`: the input buffer, the
conversation id adopted from the first successful exchange, and the
recording flag. -/
structure ChatState where
  input : List Char
  conversationId : Option String
  isRecording : Bool
deriving DecidableEq, Repr

/-- `handleSend` of `ChatInterface`: guard clause rejects when the trimmed
input is empty or a task is already in flight (`isLoading`); otherwise the
user turn is appended optimistically, the input is cleared, and the
mutation starts (its `onMutate` sets `isLoading`). -/
def handleSend (now : Nat) (cs : ChatState) (s : AppState) :
    ChatState × AppState :=
  if (jsTrim cs.input).isEmpty || s.isLoading then (cs, s)
  else
    let userMessage : ChatMessage :=
      { role := Role.user
        content := String.mk (jsTrim cs.input)
        timestamp := now }
    ({ cs with input := [] }, setIsLoading true (addMessage userMessage s))

/-- `sendMessageMutation.onSuccess`: adopt the returned conversation id,
append the assistant turn, and route the media reference (video first,
else audio). -/
def chatOnSuccess (r : ChatResponse) (cs : ChatState) (s : AppState) :
    ChatState × AppState :=
  let s1 := addMessage r.response s
  let s2 :=
    match r.response.video_url with
    | some u => setCurrentVideo (some u) s1
    | none =>
      match r.response.audio_url with
      | some u => setCurrentAudio (some u) s1
      | none => s1
  ({ cs with conversationId := some r.conversation_id }, s2)

/-- The generic synthetic assistant turn appended on a chat failure. -/
def chatErrorMessage (now : Nat) : ChatMessage :=
  { role := Role.assistant
    content := "エラーが発生しました。もう一度お試しください。"
    timestamp := now }

/-- `sendMessageMutation.onError`: append the synthetic assistant error
turn; nothing else changes. -/
def chatOnError (now : Nat) (cs : ChatState) (s : AppState) :
    ChatState × AppState :=
  (cs, addMessage (chatErrorMessage now) s)

/-- `sendMessageMutation.onSettled`: clear the loading flag, releasing the
active-task slot. -/
def chatOnSettled (cs : ChatState) (s : AppState) : ChatState × AppState :=
  (cs, setIsLoading false s)

/-- `clearChat` of `ChatInterface`: empty the transcript, drop the
conversation id, and clear both current media references in one handler. -/
def clearChat (cs : ChatState) (s : AppState) : ChatState × AppState :=
  ({ cs with conversationId := none },
    setCurrentAudio none (setCurrentVideo none (setMessages [] s)))

/-! ## ManualInput component (`ManualInput.tsx`) -/

/-- The character cap of the manual text buffer (`MAX_CHARS`). -/
def MAX_CHARS : Nat := 5000

/-- One entry of the bounded task history (`TaskHistory` interface). -/
structure TaskHistoryEntry where
  task_id : String
  text : String
  status : ProcessingStatus
  video_url : Option String
  audio_url : Option String
  timestamp : Nat
deriving DecidableEq, Repr

/-- Shape of a `/manual/speak` response (`ManualSpeakResponse`),
restricted to the fields the component reads. -/
structure ManualSpeakResponse where
  task_id : String
  text : String
  status : ProcessingStatus
  video_url : Option String
  audio_url : Option String
deriving DecidableEq, Repr

/-- Shape of a `/manual/preview` response: the synthesized audio URL. -/
structure PreviewResponse where
  audio_url : Option String
deriving DecidableEq, Repr

/-- Local React state of `ManualInput`: text buffer, the preview-only
checkbox, the task history, and the two mutations' pending flags. -/
structure ManualState where
  text : List Char
  previewOnly : Bool
  history : List TaskHistoryEntry
  speakPending : Bool
  previewPending : Bool
deriving DecidableEq, Repr

/-- Both action buttons are disabled while the trimmed buffer is empty or
either mutation is pending (`disabled=!text.trim() || isLoading` with
`isLoading = speakMutation.isPending || previewMutation.isPending`). -/
def manualButtonsDisabled (ms : ManualState) : Bool :=
  (jsTrim ms.text).isEmpty || ms.speakPending || ms.previewPending

/-- `onChange` of the manual textarea: the stored buffer is the incoming
value truncated with `slice(0, MAX_CHARS)`. -/
def textOnChange (v : List Char) (ms : ManualState) : ManualState :=
  { ms with text := v.take MAX_CHARS }

/-- Clicking the speak button: a disabled button does not fire, the
handler re-checks the trimmed text, and a firing click starts the speak
mutation (pending flag set; `onMutate` sets the store loading flag). -/
def clickSpeak (ms : ManualState) (s : AppState) : ManualState × AppState :=
  if manualButtonsDisabled ms then (ms, s)
  else ({ ms with speakPending := true }, setIsLoading true s)

/-- Clicking the preview button: a disabled button does not fire; a firing
click starts the preview mutation (no `onMutate`, store untouched). -/
def clickPreview (ms : ManualState) (s : AppState) : ManualState × AppState :=
  if manualButtonsDisabled ms then (ms, s)
  else ({ ms with previewPending := true }, s)

/-- The history entry built from a speak response in
`speakMutation.onSuccess`. -/
def entryOfResponse (r : ManualSpeakResponse) (now : Nat) : TaskHistoryEntry :=
  { task_id := r.task_id
    text := r.text
    status := r.status
    video_url := r.video_url
    audio_url := r.audio_url
    timestamp := now }

/-- The history update of `speakMutation.onSuccess`:
`[entry, ...prev.slice(0, 9)]`. -/
def pushHistory (e : TaskHistoryEntry) (h : List TaskHistoryEntry) :
    List TaskHistoryEntry :=
  e :: h.take 9

/-- `speakMutation.onSuccess`: prepend the bounded history entry, route
the media reference (video first, else audio), and clear the buffer. -/
def speakOnSuccess (r : ManualSpeakResponse) (now : Nat) (ms : ManualState)
    (s : AppState) : ManualState × AppState :=
  let ms1 := { ms with
    history := pushHistory (entryOfResponse r now) ms.history
    text := [] }
  let s1 :=
    match r.video_url with
    | some u => setCurrentVideo (some u) s
    | none =>
      match r.audio_url with
      | some u => setCurrentAudio (some u) s
      | none => s
  (ms1, s1)

/-- `speakMutation.onError`: only a console log; no component or store
field changes. -/
def speakOnError (ms : ManualState) (s : AppState) : ManualState × AppState :=
  (ms, s)

/-- `speakMutation.onSettled`: resolve the mutation and clear the store
loading flag. -/
def speakOnSettled (ms : ManualState) (s : AppState) : ManualState × AppState :=
  ({ ms with speakPending := false }, setIsLoading false s)

/-- `previewMutation.onSuccess`: set the current audio reference to the
returned audio URL; nothing else. -/
def previewOnSuccess (r : PreviewResponse) (ms : ManualState) (s : AppState) :
    ManualState × AppState :=
  (ms, setCurrentAudio r.audio_url s)

/-- Resolution of the preview mutation: the pending flag drops (the
mutation has no `onSettled`, so the store is untouched). -/
def previewResolve (ms : ManualState) (s : AppState) : ManualState × AppState :=
  ({ ms with previewPending := false }, s)

/-- A complete successful preview round trip: the click submits, the
response arrives, the mutation resolves. -/
def previewFlow (r : PreviewResponse) (ms : ManualState) (s : AppState) :
    ManualState × AppState :=
  let p1 := clickPreview ms s
  let p2 := previewOnSuccess r p1.1 p1.2
  previewResolve p2.1 p2.2

/-- `playFromHistory`: re-apply a stored media reference (video first,
else audio) without submitting anything. -/
def playFromHistory (item : TaskHistoryEntry) (s : AppState) : AppState :=
  match item.video_url with
  | some u => setCurrentVideo (some u) s
  | none =>
    match item.audio_url with
    | some u => setCurrentAudio (some u) s
    | none => s

/-! ## AvatarDisplay playback decisions (`AvatarDisplay.tsx`) -/

/-- The video element is rendered exactly when a video reference is set. -/
def videoRendered (s : AppState) : Bool :=
  s.currentVideoUrl.isSome

/-- The hidden audio element is rendered (and auto-plays) exactly when an
audio reference is set and no video reference is set
(`currentAudioUrl && !currentVideoUrl`); the playback effect has the same
guard. -/
def audioRendered (s : AppState) : Bool :=
  s.currentAudioUrl.isSome && !s.currentVideoUrl.isSome

/-! ## Concrete example states used by witness theorems -/

/-- A persisted snapshot in which all three setup identifiers are set, as
written by `partialize` after a completed setup. -/
def persistedFull : PersistedState :=
  { voiceId := some "v1", cloneId := some "c1", imageId := some "i1" }

/-- Example manual-input state with a non-blank buffer and no pending
mutation. -/
def msIdle : ManualState :=
  { text := "hi".data
    previewOnly := false
    history := []
    speakPending := false
    previewPending := false }

/-- Example preview response. -/
def previewRespEx : PreviewResponse :=
  { audio_url := some "a.mp3" }

/-! ## Helper lemmas -/

/-- Truncating the tail of a prepend before or after an eleventh element
makes no difference to the first ten elements. -/
theorem take_ten_cons_take_nine {α : Type} (l : List α) (e : α) (h : List α) :
    (l ++ e :: h.take 9).take 10 = (l ++ e :: h).take 10 := by
  rw [List.take_append_eq_append_take, List.take_append_eq_append_take]
  congr 1
  rcases hn : 10 - l.length with _ | k
  · rfl
  · rw [List.take_succ_cons, List.take_succ_cons, List.take_take]
    have hk : min k 9 = k := by omega
    rw [hk]

/-- Folding the history update over any sequence of entries, starting from
a history of at most ten entries, keeps the newest-first prefix of length
ten. -/
theorem foldl_pushHistory (es : List TaskHistoryEntry) :
    ∀ acc : List TaskHistoryEntry, acc.length ≤ 10 →
      es.foldl (fun h e => pushHistory e h) acc = (es.reverse ++ acc).take 10 := by
  induction es with
  | nil =>
    intro acc hacc
    simp [List.take_of_length_le hacc]
  | cons e es ih =>
    intro acc hacc
    have hlen : (pushHistory e acc).length ≤ 10 := by
      simp [pushHistory]
    simp only [List.foldl_cons, List.reverse_cons]
    rw [ih (pushHistory e acc) hlen, List.append_assoc, List.singleton_append]
    exact take_ten_cons_take_nine es.reverse e acc

/-! ## Claim theorems -/

/-- C1: the claim asserts that `isReady` equals the conjunction of the
three identifiers being non-null after every store operation, rehydration
included.  The equivalence is indeed re-established by each identifier
setter and by `reset`, but rehydration restores only the three persisted
identifiers and never recomputes `isReady`: merging a fully-populated
persisted snapshot into the initial state leaves `isReady` false while all
three identifiers are non-null. -/
theorem ready_equivalence_broken_by_rehydration :
    (∀ id s, (setVoiceId id s).isReady
        = ((setVoiceId id s).voiceId.isSome && (setVoiceId id s).cloneId.isSome
            && (setVoiceId id s).imageId.isSome)) ∧
    (∀ id s, (setCloneId id s).isReady
        = ((setCloneId id s).voiceId.isSome && (setCloneId id s).cloneId.isSome
            && (setCloneId id s).imageId.isSome)) ∧
    (∀ id s, (setImageId id s).isReady
        = ((setImageId id s).voiceId.isSome && (setImageId id s).cloneId.isSome
            && (setImageId id s).imageId.isSome)) ∧
    (∀ s, (reset s).isReady
        = ((reset s).voiceId.isSome && (reset s).cloneId.isSome
            && (reset s).imageId.isSome)) ∧
    (rehydrate persistedFull initialState).voiceId.isSome = true ∧
    (rehydrate persistedFull initialState).cloneId.isSome = true ∧
    (rehydrate persistedFull initialState).imageId.isSome = true ∧
    (rehydrate persistedFull initialState).isReady = false := by
  refine ⟨fun id s => rfl, fun id s => rfl, fun id s => rfl, fun s => rfl,
    rfl, rfl, rfl, rfl⟩

/-- C2: while a task is in flight, a further submission is rejected
synchronously and mutates nothing: `handleSend` on a loading store returns
the state unchanged, and a click on the speak or preview button while
either manual mutation is pending is a no-op. -/
theorem second_submission_rejected :
    (∀ (now : Nat) (cs : ChatState) (s : AppState),
      handleSend now cs { s with isLoading := true }
        = (cs, { s with isLoading := true })) ∧
    (∀ (ms : ManualState) (s : AppState),
      clickSpeak { ms with speakPending := true } s
        = ({ ms with speakPending := true }, s)) ∧
    (∀ (ms : ManualState) (s : AppState),
      clickSpeak { ms with previewPending := true } s
        = ({ ms with previewPending := true }, s)) ∧
    (∀ (ms : ManualState) (s : AppState),
      clickPreview { ms with speakPending := true } s
        = ({ ms with speakPending := true }, s)) ∧
    (∀ (ms : ManualState) (s : AppState),
      clickPreview { ms with previewPending := true } s
        = ({ ms with previewPending := true }, s)) := by
  refine ⟨fun now cs s => ?_, fun ms s => ?_, fun ms s => ?_,
    fun ms s => ?_, fun ms s => ?_⟩ <;>
    simp [handleSend, clickSpeak, clickPreview, manualButtonsDisabled]

/-- C3: a task that terminates as failed is surfaced and the active slot
is released.  In chat mode the failure handler appends the synthetic
assistant turn and the settle handler clears the loading flag; in manual
mode a failed speak response (no media URLs) becomes an inert history
entry with no media, playback is untouched, and the loading flag is
cleared. -/
theorem failed_task_surfaced_and_slot_cleared :
    (∀ now cs s,
      (chatOnSettled (chatOnError now cs s).1 (chatOnError now cs s).2).2.messages
          = s.messages ++ [chatErrorMessage now] ∧
      (chatErrorMessage now).role = Role.assistant ∧
      (chatOnSettled (chatOnError now cs s).1 (chatOnError now cs s).2).2.isLoading
          = false ∧
      (chatOnSettled (chatOnError now cs s).1 (chatOnError now cs s).2).2.currentVideoUrl
          = s.currentVideoUrl ∧
      (chatOnSettled (chatOnError now cs s).1 (chatOnError now cs s).2).2.currentAudioUrl
          = s.currentAudioUrl ∧
      (chatOnSettled (chatOnError now cs s).1 (chatOnError now cs s).2).1 = cs) ∧
    (∀ tid txt now ms s,
      let r : ManualSpeakResponse :=
        { task_id := tid, text := txt, status := ProcessingStatus.failed,
          video_url := none, audio_url := none }
      let q := speakOnSettled (speakOnSuccess r now ms s).1 (speakOnSuccess r now ms s).2
      q.1.history = entryOfResponse r now :: ms.history.take 9 ∧
      (entryOfResponse r now).status = ProcessingStatus.failed ∧
      (entryOfResponse r now).video_url = none ∧
      (entryOfResponse r now).audio_url = none ∧
      q.2.currentVideoUrl = s.currentVideoUrl ∧
      q.2.currentAudioUrl = s.currentAudioUrl ∧
      q.1.speakPending = false ∧
      q.2.isLoading = false) := by
  constructor
  · intro now cs s
    refine ⟨rfl, rfl, rfl, rfl, rfl, rfl⟩
  · intro tid txt now ms s
    refine ⟨rfl, rfl, rfl, rfl, rfl, rfl, rfl, rfl⟩

/-- C4: the audio element is rendered and auto-played exactly when an
audio reference is set and no video reference is set, and a completed
result that carries a video URL applies that video URL to the playback
slot (in both the chat and the manual success handlers) regardless of any
audio URL also present in the result. -/
theorem video_takes_precedence_over_audio :
    (∀ s, audioRendered s = true ↔
        (s.currentAudioUrl.isSome = true ∧ s.currentVideoUrl = none)) ∧
    (∀ cid role content ts (au : Option String) u cs s,
      let r : ChatResponse :=
        { conversation_id := cid,
          response := { role := role, content := content, timestamp := ts,
                        audio_url := au, video_url := some u } }
      (chatOnSuccess r cs s).2.currentVideoUrl = some u ∧
      (chatOnSuccess r cs s).2.currentAudioUrl = s.currentAudioUrl) ∧
    (∀ tid txt st (au : Option String) u now ms s,
      let r : ManualSpeakResponse :=
        { task_id := tid, text := txt, status := st,
          video_url := some u, audio_url := au }
      (speakOnSuccess r now ms s).2.currentVideoUrl = some u ∧
      (speakOnSuccess r now ms s).2.currentAudioUrl = s.currentAudioUrl) := by
  refine ⟨fun s => ?_, fun cid role content ts au u cs s => ⟨rfl, rfl⟩,
    fun tid txt st au u now ms s => ⟨rfl, rfl⟩⟩
  cases hv : s.currentVideoUrl <;> cases ha : s.currentAudioUrl <;>
    simp [audioRendered, hv, ha]

/-- C5: the history produced by folding the `onSuccess` update over any
sequence of completed tasks is exactly the ten most recent entries
newest-first, hence never exceeds ten entries, each new entry is placed at
the head, and the speak success handler performs precisely this update. -/
theorem task_history_bounded_newest_first :
    (∀ es : List TaskHistoryEntry,
      es.foldl (fun h e => pushHistory e h) [] = es.reverse.take 10) ∧
    (∀ es : List TaskHistoryEntry,
      (es.foldl (fun h e => pushHistory e h) []).length ≤ 10) ∧
    (∀ e h, (pushHistory e h).head? = some e) ∧
    (∀ r now ms s, (speakOnSuccess r now ms s).1.history
        = pushHistory (entryOfResponse r now) ms.history) := by
  have hfold : ∀ es : List TaskHistoryEntry,
      es.foldl (fun h e => pushHistory e h) [] = es.reverse.take 10 := by
    intro es
    have := foldl_pushHistory es [] (by simp)
    simpa using this
  refine ⟨hfold, fun es => ?_, fun e h => rfl, fun r now ms s => rfl⟩
  rw [hfold es]
  simp [List.length_take]

/-- C6: `clearChat` in one handler empties the transcript, drops the
conversation id, and clears both media references, while leaving every
other component and store field untouched. -/
theorem clear_chat_atomic :
    ∀ cs s,
      (clearChat cs s).2.messages = [] ∧
      (clearChat cs s).1.conversationId = none ∧
      (clearChat cs s).2.currentVideoUrl = none ∧
      (clearChat cs s).2.currentAudioUrl = none ∧
      (clearChat cs s).1.input = cs.input ∧
      (clearChat cs s).1.isRecording = cs.isRecording ∧
      (clearChat cs s).2.voiceId = s.voiceId ∧
      (clearChat cs s).2.cloneId = s.cloneId ∧
      (clearChat cs s).2.imageId = s.imageId ∧
      (clearChat cs s).2.isReady = s.isReady ∧
      (clearChat cs s).2.mode = s.mode ∧
      (clearChat cs s).2.isLoading = s.isLoading := by
  intro cs s
  refine ⟨rfl, rfl, rfl, rfl, rfl, rfl, rfl, rfl, rfl, rfl, rfl, rfl⟩

/-- C7: the textarea change handler stores the incoming value truncated to
the 5,000-character cap: the stored buffer is always the truncation, its
length never exceeds the cap, and characters beyond the cap have no effect
on the stored buffer; no input is ever rejected. -/
theorem manual_text_truncated_at_cap :
    ∀ v ms,
      (textOnChange v ms).text = v.take MAX_CHARS ∧
      (textOnChange v ms).text.length ≤ MAX_CHARS ∧
      textOnChange v ms = textOnChange (v.take MAX_CHARS) ms ∧
      (textOnChange v ms).history = ms.history := by
  intro v ms
  refine ⟨rfl, ?_, ?_, rfl⟩
  · simp [textOnChange, List.length_take]
  · simp [textOnChange, List.take_take]

/-- C8: the persisted projection is exactly the three setup identifiers:
it is insensitive to the ready flag, mode, conversation id, transcript,
loading flag and both media references, and it carries each identifier
through unchanged. -/
theorem persisted_state_only_identifiers :
    ∀ s b m cid msgs ld vu au,
      partialize { s with isReady := b, mode := m, conversationId := cid,
                          messages := msgs, isLoading := ld,
                          currentVideoUrl := vu, currentAudioUrl := au }
          = partialize s ∧
      (partialize s).voiceId = s.voiceId ∧
      (partialize s).cloneId = s.cloneId ∧
      (partialize s).imageId = s.imageId := by
  intro s b m cid msgs ld vu au
  refine ⟨rfl, rfl, rfl, rfl⟩

/-- C9: a successful preview round trip sets the current audio reference
to the returned audio URL and changes nothing else that matters: the video
reference, the task history, the text buffer, the transcript and the
loading flag are all left as they were. -/
theorem preview_sets_audio_only :
    ∀ r ms s,
      (jsTrim ms.text).isEmpty = false →
      ms.speakPending = false →
      ms.previewPending = false →
      (previewFlow r ms s).2.currentAudioUrl = r.audio_url ∧
      (previewFlow r ms s).2.currentVideoUrl = s.currentVideoUrl ∧
      (previewFlow r ms s).1.history = ms.history ∧
      (previewFlow r ms s).1.text = ms.text ∧
      (previewFlow r ms s).2.messages = s.messages ∧
      (previewFlow r ms s).2.isLoading = s.isLoading := by
  intro r ms s ht hs hp
  simp [previewFlow, clickPreview, manualButtonsDisabled, ht, hs, hp,
    previewOnSuccess, previewResolve, setCurrentAudio]

/-- Witness for C9 at a concrete idle manual state and concrete response. -/
theorem preview_sets_audio_only_witness :
    (previewFlow previewRespEx msIdle initialState).2.currentAudioUrl
        = previewRespEx.audio_url ∧
    (previewFlow previewRespEx msIdle initialState).2.currentVideoUrl
        = initialState.currentVideoUrl ∧
    (previewFlow previewRespEx msIdle initialState).1.history = msIdle.history ∧
    (previewFlow previewRespEx msIdle initialState).1.text = msIdle.text ∧
    (previewFlow previewRespEx msIdle initialState).2.messages
        = initialState.messages ∧
    (previewFlow previewRespEx msIdle initialState).2.isLoading
        = initialState.isLoading :=
  preview_sets_audio_only previewRespEx msIdle initialState
    (by decide) rfl rfl

/-- C10: `reset` maps every store state to the one fixed initial state,
whose transcript is empty, conversation id cleared, mode `auto`, loading
flag off, media references cleared, identifiers null and ready flag
false. -/
theorem reset_restores_full_initial_state :
    ∀ s, reset s = initialState ∧
      initialState.voiceId = none ∧
      initialState.cloneId = none ∧
      initialState.imageId = none ∧
      initialState.isReady = false ∧
      initialState.mode = ChatMode.auto ∧
      initialState.conversationId = none ∧
      initialState.messages = [] ∧
      initialState.isLoading = false ∧
      initialState.currentVideoUrl = none ∧
      initialState.currentAudioUrl = none := by
  intro s
  refine ⟨rfl, rfl, rfl, rfl, rfl, rfl, rfl, rfl, rfl, rfl, rfl⟩

end AvatarApp
